import Mathlib

/-!
Shallow embedding of `web_design/visualizer.py` (class `AccidentVisualizer`).

The Python class maps Korean display labels to internal `"TABLE.Column"`
identifiers, dispatches on the semantic-type pair of the two selected fields,
builds an SQL string for one of five chart routines, fetches rows through an
SQLAlchemy engine, and returns a `(figure-or-None, message)` pair.

Modelling choices:
* Semantic types stay the Korean strings the source uses
  (`"범주형"`/`"수치형"`/`"시간형"`, default `"알 수 없음"`).
* The database engine is an abstract `FetchFn : String → Except String Df0`;
  a raised exception during a fetch is the `Except.error` arm.  Chart
  routines therefore return `Except String (Option Fig × String)` and
  `generate_visualization` plays the role of the `try/except` wrapper.
* Every routine also reports the list of SQL strings it handed to
  `_fetch_data`, so "issues no query" is `queries = []`.
* `plotly` figures are modelled as a `Fig` inductive recording exactly the
  arguments the source passes to `px.bar` / `px.line` / `px.scatter`,
  including the post-construction axis updates (`type='category'`,
  `dtick=1`).
* `pd.to_datetime(col, format='%Y%m')` is modelled by `convertTimeColumn`:
  it converts the whole first column when every value parses as a six-digit
  `YYYYMM` with a valid month, and otherwise (pandas raises, the source
  catches and logs a warning) leaves every value unconverted and reports the
  warning as a `Bool`.
-/

/-- One entry of `AccidentVisualizer.COLUMN_CONFIG`: internal DB column name,
semantic type string, Korean display label. -/
structure ColInfo where
  internal : String
  ctype : String
  label : String
deriving DecidableEq, Repr

/-- `COLUMN_CONFIG` from the source, in source order. -/
def COLUMN_CONFIG : List ColInfo := [
  -- 범주형 (Categorical)
  ⟨"ACCIDENT.DayNight", "범주형", "주야"⟩,
  ⟨"ACCIDENT.AccidentType", "범주형", "사고유형"⟩,
  ⟨"ACCIDENT.LawViolationYn", "범주형", "법규위반 여부"⟩,
  ⟨"ACCIDENT.RoadSurfaceState", "범주형", "노면상태"⟩,
  ⟨"ACCIDENT.WeatherState", "범주형", "기상상태"⟩,
  ⟨"ACCIDENT.RoadForm", "범주형", "도로형태"⟩,
  ⟨"REGION.RegionName", "범주형", "지역명 (시군구)"⟩,
  ⟨"DRIVER.Role", "범주형", "운전자 구분 (가해/피해)"⟩,
  ⟨"DRIVER.VehicleType", "범주형", "운전자 차종"⟩,
  ⟨"DRIVER.Gender", "범주형", "운전자 성별"⟩,
  ⟨"DRIVER.AgeGroup", "범주형", "운전자 연령대"⟩,
  ⟨"DRIVER.InjuryLevel", "범주형", "운전자 상해정도"⟩,
  -- 수치형 (Numerical)
  ⟨"ACCIDENT.DeathCount", "수치형", "사망자수"⟩,
  ⟨"ACCIDENT.SevereInjuryCount", "수치형", "중상자수"⟩,
  ⟨"ACCIDENT.MinorInjuryCount", "수치형", "경상자수"⟩,
  ⟨"ACCIDENT.ReportedInjuryCount", "수치형", "부상신고자수"⟩,
  ⟨"ACCIDENT.(사고건수)", "수치형", "사고건수"⟩,
  -- 시간형 (Temporal)
  ⟨"ACCIDENT.OccurYearMonth", "시간형", "발생년월"⟩]

/-- The reverse map `LABEL_TO_INTERNAL = {v['label']: k for k, v in
COLUMN_CONFIG.items()}`.  A Python dict comprehension keeps the last binding
of a duplicated key, hence the lookup over the reversed list. -/
def LABEL_TO_INTERNAL (label : String) : Option String :=
  (COLUMN_CONFIG.reverse.find? (fun e => e.label == label)).map (·.internal)

/-- `_get_internal_name`. -/
def get_internal_name (label : String) : Option String :=
  LABEL_TO_INTERNAL label

/-- `_get_column_type`: `COLUMN_CONFIG.get(internal_name, {}).get('type',
'알 수 없음')`. -/
def get_column_type (internal_name : String) : String :=
  ((COLUMN_CONFIG.find? (fun e => e.internal == internal_name)).map
    (·.ctype)).getD "알 수 없음"

/-- `get_available_columns`: the sorted display labels. -/
def get_available_columns : List String :=
  (COLUMN_CONFIG.map (·.label)).mergeSort (· ≤ ·)

/-- Split a character list at every occurrence of `c` (Python
`str.split`). -/
def splitOnCharAux (c : Char) : List Char → List Char → List (List Char)
  | [], acc => [acc.reverse]
  | x :: xs, acc =>
    if x == c then acc.reverse :: splitOnCharAux c xs []
    else splitOnCharAux c xs (x :: acc)

/-- `table, col = var.split('.')`.  Every internal name in the catalog has
exactly one dot, so the Python two-element unpacking always succeeds; the
fallback arm is unreachable on catalog identifiers. -/
def splitDot (s : String) : String × String :=
  match (splitOnCharAux '.' s.data []).map String.mk with
  | [a, b] => (a, b)
  | _ => ("", "")

/-- Python `str.replace(c, "")` for a single-character needle: drop every
occurrence. -/
def removeChar (c : Char) (s : String) : String :=
  String.mk (s.data.filter (· != c))

/-- `strStarts needle hay`: `needle` is an initial run of `hay`. -/
def strStarts : List Char → List Char → Bool
  | [], _ => true
  | _ :: _, [] => false
  | a :: as, b :: bs => a == b && strStarts as bs

/-- `strHas needle hay`: `needle` occurs contiguously inside `hay`. -/
def strHas (needle : List Char) : List Char → Bool
  | [] => strStarts needle []
  | c :: rest => strStarts needle (c :: rest) || strHas needle rest

/-- Python's substring test `needle in hay`. -/
def strContains (hay needle : String) : Bool :=
  strHas needle.data hay.data

/-- `_build_query_components(var1, var2, agg_func)`: returns
`(select, from, join, group_by, order_by)` clause strings. -/
def build_query_components (var1 var2 : String) (agg_func : Option String) :
    String × String × String × String × String :=
  let (table1, col1) := splitDot var1
  let (table2, col2) := splitDot var2
  let tables_needed : List String := ["ACCIDENT", table1, table2]
  let from_clause := "FROM ACCIDENT"
  let join_clause :=
    (if tables_needed.contains "DRIVER" then
      " JOIN DRIVER ON ACCIDENT.AccidentID = DRIVER.AccidentID" else "")
    ++ (if tables_needed.contains "REGION" then
      " JOIN REGION ON ACCIDENT.RegionCode = REGION.RegionCode" else "")
  match agg_func with
  | some agg =>
    let select_col2 :=
      if col2 == "(사고건수)" then "COUNT(ACCIDENT.AccidentID)"
      else
        let safe_col2 := removeChar ')' (removeChar '(' col2)
        agg ++ "(" ++ table2 ++ "." ++ safe_col2 ++ ")"
    ("SELECT " ++ table1 ++ "." ++ col1 ++ ", " ++ select_col2 ++ " AS Value",
      from_clause, join_clause,
      "GROUP BY " ++ table1 ++ "." ++ col1,
      "ORDER BY " ++ table1 ++ "." ++ col1)
  | none =>
    ("SELECT " ++ table1 ++ "." ++ col1 ++ ", " ++ table2 ++ "." ++ col2,
      from_clause, join_clause, "", "")

/-- A fetched cell: either the raw string the query returned, or the result
of the `pd.to_datetime` fix-up (a year–month date). -/
inductive Cell where
  | str (s : String)
  | date (y m : Nat)
deriving DecidableEq, Repr

/-- A raw result set, straight from the database: rows of strings, columns
in `SELECT` order. -/
abbrev Df0 := List (List String)

/-- A data frame a figure is built over (the temporal column may have been
converted to dates). -/
abbrev Df := List (List Cell)

/-- Lift a raw result set to a frame of raw cells. -/
def rawDf (df : Df0) : Df := df.map (fun row => row.map Cell.str)

/-- Accumulate decimal digits. -/
def digitsToNat (cs : List Char) : Nat :=
  cs.foldl (fun acc c => acc * 10 + (c.toNat - 48)) 0

/-- `strptime` with the fixed format `'%Y%m'` on the catalog's six-digit
year–month strings: four digit year, two digit month `01`–`12`. -/
def parseYearMonth (s : String) : Option (Nat × Nat) :=
  let cs := s.data
  if cs.length = 6 ∧ cs.all (·.isDigit) then
    let y := digitsToNat (cs.take 4)
    let m := digitsToNat (cs.drop 4)
    if 1 ≤ m ∧ m ≤ 12 then some (y, m) else none
  else none

/-- `df[col] = pd.to_datetime(df[col], format='%Y%m')` wrapped in
`try/except`: pandas converts the whole first column or raises; the source
catches, logs a warning, and proceeds with the unconverted frame.  The
returned `Bool` is true exactly when that warning was logged. -/
def convertTimeColumn (df : Df0) : Df × Bool :=
  if df.all (fun row => (parseYearMonth (row.headD "")).isSome) then
    (df.map (fun row =>
      match row with
      | [] => []
      | c :: rest =>
        (match parseYearMonth c with
          | some (y, m) => Cell.date y m
          | none => Cell.str c) :: rest.map Cell.str), false)
  else (rawDf df, true)

/-- A plotly figure, recording the arguments the source passes to
`px.bar` / `px.line` / `px.scatter` plus the axis updates applied
afterwards. -/
inductive Fig where
  /-- `px.bar` in `_create_bar_chart`, then `update_xaxes(type='category')`. -/
  | bar (df : Df) (x y : String) (title : String)
      (labels : List (String × String)) (xaxisCategory : Bool)
  /-- `px.line` in `_create_line_chart` (`markers=True`). -/
  | line (df : Df) (x y : String) (title : String)
      (labels : List (String × String)) (markers : Bool)
  /-- `px.bar` with `color`/`barmode='group'` in `_create_grouped_bar_chart`. -/
  | groupedBar (df : Df) (x y color : String) (title : String)
      (labels : List (String × String))
  /-- `px.scatter` in `_create_bubble_chart`, then `update_xaxes(dtick=1)`
  and `update_yaxes(dtick=1)`. -/
  | scatter (df : Df) (x y size color : String) (sizeMax : Nat)
      (title : String) (labels : List (String × String)) (dtickX dtickY : Nat)
  /-- `px.line` with `color` in `_create_multi_line_chart` (`markers=True`). -/
  | multiLine (df : Df) (x y color : String) (title : String)
      (labels : List (String × String)) (markers : Bool)
deriving DecidableEq, Repr

/-- The backing store: maps an SQL string to rows, or raises. -/
abbrev FetchFn := String → Except String Df0

/-- The outcome of a chart routine: the value `generate_visualization`'s
`try` block sees (`.error` = a raised exception), paired with the SQL
strings the routine passed to `_fetch_data`, in order. -/
abbrev RoutineOut := Except String (Option Fig × String) × List String

/-- `(fig, title)` or `(None, message)`, plus the issued queries. -/
abbrev VizOut := (Option Fig × String) × List String

/-- The SQL string `_create_bar_chart` builds:
`f"{sel} {frm} {jn} {grp} ORDER BY Value DESC LIMIT 20"` with
`agg_func = "COUNT" if '(사고건수)' in num_var else "SUM"`. -/
def bar_chart_query (cat_var num_var : String) : String :=
  let agg_func := if strContains num_var "(사고건수)" then "COUNT" else "SUM"
  let (sel, frm, jn, grp, _) :=
    build_query_components cat_var num_var (some agg_func)
  sel ++ " " ++ frm ++ " " ++ jn ++ " " ++ grp
    ++ " ORDER BY Value DESC LIMIT 20"

/-- The SQL string `_create_line_chart` builds:
`f"{sel} {frm} {jn} {grp} {odr}"`. -/
def line_chart_query (time_var num_var : String) : String :=
  let agg_func := if strContains num_var "(사고건수)" then "COUNT" else "SUM"
  let (sel, frm, jn, grp, odr) :=
    build_query_components time_var num_var (some agg_func)
  sel ++ " " ++ frm ++ " " ++ jn ++ " " ++ grp ++ " " ++ odr

/-- The SQL string `_create_grouped_bar_chart` builds inline. -/
def grouped_bar_chart_query (var1 var2 num_var : String) : String :=
  let (table1, col1) := splitDot var1
  let (table2, col2) := splitDot var2
  let (table3, col3) := splitDot num_var
  let agg_val := if col3 == "(사고건수)" then "COUNT(ACCIDENT.AccidentID)"
    else "SUM(" ++ table3 ++ "." ++ col3 ++ ")"
  let select_clause := "SELECT " ++ table1 ++ "." ++ col1 ++ ", " ++ table2
    ++ "." ++ col2 ++ ", " ++ agg_val ++ " AS Value"
  let tables_needed : List String := ["ACCIDENT", table1, table2, table3]
  let from_clause := "FROM ACCIDENT"
  let join_clause :=
    (if tables_needed.contains "DRIVER" then
      " JOIN DRIVER ON ACCIDENT.AccidentID = DRIVER.AccidentID" else "")
    ++ (if tables_needed.contains "REGION" then
      " JOIN REGION ON ACCIDENT.RegionCode = REGION.RegionCode" else "")
  let group_by_clause := "GROUP BY " ++ table1 ++ "." ++ col1 ++ ", "
    ++ table2 ++ "." ++ col2
  select_clause ++ " " ++ from_clause ++ " " ++ join_clause
    ++ " " ++ group_by_clause

/-- The SQL string `_create_bubble_chart` builds inline. -/
def bubble_chart_query (var1 var2 : String) : String :=
  let (table1, col1) := splitDot var1
  let (table2, col2) := splitDot var2
  let select_clause := "SELECT " ++ table1 ++ "." ++ col1 ++ ", " ++ table2
    ++ "." ++ col2 ++ ", COUNT(ACCIDENT.AccidentID) AS BubbleSize"
  let tables_needed : List String := ["ACCIDENT", table1, table2]
  let from_clause := "FROM ACCIDENT"
  let join_clause :=
    (if tables_needed.contains "DRIVER" then
      " JOIN DRIVER ON ACCIDENT.AccidentID = DRIVER.AccidentID" else "")
    ++ (if tables_needed.contains "REGION" then
      " JOIN REGION ON ACCIDENT.RegionCode = REGION.RegionCode" else "")
  let group_by_clause := "GROUP BY " ++ table1 ++ "." ++ col1 ++ ", "
    ++ table2 ++ "." ++ col2
  select_clause ++ " " ++ from_clause ++ " " ++ join_clause
    ++ " " ++ group_by_clause

/-- The SQL string `_create_multi_line_chart` builds inline. -/
def multi_line_chart_query (time_var cat_var num_var : String) : String :=
  let (table1, col1) := splitDot time_var
  let (table2, col2) := splitDot cat_var
  let (table3, col3) := splitDot num_var
  let agg_val := if col3 == "(사고건수)" then "COUNT(ACCIDENT.AccidentID)"
    else "SUM(" ++ table3 ++ "." ++ col3 ++ ")"
  let select_clause := "SELECT " ++ table1 ++ "." ++ col1 ++ ", " ++ table2
    ++ "." ++ col2 ++ ", " ++ agg_val ++ " AS Value"
  let tables_needed : List String := ["ACCIDENT", table1, table2, table3]
  let from_clause := "FROM ACCIDENT"
  let join_clause :=
    (if tables_needed.contains "DRIVER" then
      " JOIN DRIVER ON ACCIDENT.AccidentID = DRIVER.AccidentID" else "")
    ++ (if tables_needed.contains "REGION" then
      " JOIN REGION ON ACCIDENT.RegionCode = REGION.RegionCode" else "")
  let group_by_clause := "GROUP BY " ++ table1 ++ "." ++ col1 ++ ", "
    ++ table2 ++ "." ++ col2
  let order_by_clause := "ORDER BY " ++ table1 ++ "." ++ col1
  select_clause ++ " " ++ from_clause ++ " " ++ join_clause
    ++ " " ++ group_by_clause ++ " " ++ order_by_clause

/-- `_create_bar_chart(cat_var, num_var, cat_label, num_label)`
(Case 1: 범주형 vs 수치형). -/
def create_bar_chart (fetch : FetchFn)
    (cat_var num_var cat_label num_label : String) : RoutineOut :=
  let title := "'" ++ cat_label ++ "' 별 '" ++ num_label ++ "' (상위 20개)"
  let query := bar_chart_query cat_var num_var
  (match fetch query with
    | .error e => .error e
    | .ok df =>
      let col1_name := (splitDot cat_var).2
      .ok (some (Fig.bar (rawDf df) col1_name "Value" title
        [(col1_name, cat_label), ("Value", num_label)] true), title),
    [query])

/-- `_create_line_chart(time_var, num_var, time_label, num_label)`
(Case 2: 시간형 vs 수치형). -/
def create_line_chart (fetch : FetchFn)
    (time_var num_var time_label num_label : String) : RoutineOut :=
  let title := "'" ++ time_label ++ "' 별 '" ++ num_label ++ "' 추이"
  let query := line_chart_query time_var num_var
  (match fetch query with
    | .error e => .error e
    | .ok df =>
      let col1_name := (splitDot time_var).2
      .ok (some (Fig.line (convertTimeColumn df).1 col1_name "Value" title
        [(col1_name, time_label), ("Value", num_label)] true), title),
    [query])

/-- `_create_grouped_bar_chart(var1, var2, num_var, label1, label2,
num_label)` (Case 3: 범주형 vs 범주형). -/
def create_grouped_bar_chart (fetch : FetchFn)
    (var1 var2 num_var label1 label2 num_label : String) : RoutineOut :=
  let title := "'" ++ label1 ++ "'와 '" ++ label2 ++ "' 별 '" ++ num_label
    ++ "' (그룹형 막대 차트)"
  let (_, col1) := splitDot var1
  let (_, col2) := splitDot var2
  let query := grouped_bar_chart_query var1 var2 num_var
  (match fetch query with
    | .error e => .error e
    | .ok df =>
      .ok (some (Fig.groupedBar (rawDf df) col1 "Value" col2 title
        [(col1, label1), (col2, label2), ("Value", num_label)]), title),
    [query])

/-- `_create_bubble_chart(var1, var2, label1, label2)`
(Case 4: 수치형 vs 수치형). -/
def create_bubble_chart (fetch : FetchFn)
    (var1 var2 label1 label2 : String) : RoutineOut :=
  let title := "'" ++ label1 ++ "'와 '" ++ label2
    ++ "' 조합별 '사고건수' (버블 차트)"
  let (_, col1) := splitDot var1
  let (_, col2) := splitDot var2
  let query := bubble_chart_query var1 var2
  (match fetch query with
    | .error e => .error e
    | .ok df =>
      if df.isEmpty then
        .ok (none, "데이터가 없어 버블 차트를 생성할 수 없습니다.")
      else
        .ok (some (Fig.scatter (rawDf df) col1 col2 "BubbleSize" "BubbleSize"
          60 title [(col1, label1), (col2, label2), ("BubbleSize", "사고건수")]
          1 1), title),
    [query])

/-- `_create_multi_line_chart(time_var, cat_var, num_var, time_label,
cat_label, num_label)` (Case 5: 시간형 vs 범주형). -/
def create_multi_line_chart (fetch : FetchFn)
    (time_var cat_var num_var time_label cat_label num_label : String) :
    RoutineOut :=
  let title := "'" ++ time_label ++ "'에 따른 '" ++ cat_label ++ "'별 '"
    ++ num_label ++ "' 추이"
  let (_, col1) := splitDot time_var
  let (_, col2) := splitDot cat_var
  let query := multi_line_chart_query time_var cat_var num_var
  (match fetch query with
    | .error e => .error e
    | .ok df =>
      let col1_name := (splitDot time_var).2
      .ok (some (Fig.multiLine (convertTimeColumn df).1 col1_name "Value" col2
        title [(col1, time_label), ("Value", num_label), (col2, cat_label)]
        true), title),
    [query])

/-- The `except Exception as e:` arm of `generate_visualization`: a raised
exception becomes `(None, "차트 생성 중 오류가 발생했습니다: " + e)`. -/
def runChart (r : RoutineOut) : VizOut :=
  match r with
  | (.ok res, qs) => (res, qs)
  | (.error e, qs) => ((none, "차트 생성 중 오류가 발생했습니다: " ++ e), qs)

/-- `generate_visualization(label1, label2)`.  Label resolution happens
before the `try` block; the dispatch if-chain is inside it.  `num_var` in
Cases 3 and 5 is `_get_internal_name('사고건수')`, which always resolves for
this catalog; the `getD ""` default is unreachable. -/
def generate_visualization (fetch : FetchFn) (label1 label2 : String) :
    VizOut :=
  match get_internal_name label1, get_internal_name label2 with
  | some var1, some var2 =>
    let type1 := get_column_type var1
    let type2 := get_column_type var2
    -- Case 1: 범주형 vs 수치형 -> 수직 막대 차트
    if type1 == "범주형" && type2 == "수치형" then
      runChart (create_bar_chart fetch var1 var2 label1 label2)
    else if type1 == "수치형" && type2 == "범주형" then
      runChart (create_bar_chart fetch var2 var1 label2 label1)
    -- Case 2: 시간형 vs 수치형 -> 라인 차트
    else if type1 == "시간형" && type2 == "수치형" then
      runChart (create_line_chart fetch var1 var2 label1 label2)
    else if type1 == "수치형" && type2 == "시간형" then
      runChart (create_line_chart fetch var2 var1 label2 label1)
    -- Case 3: 범주형 vs 범주형 -> 그룹형 막대 차트
    else if type1 == "범주형" && type2 == "범주형" then
      let num_label := "사고건수"
      let num_var := (get_internal_name num_label).getD ""
      runChart (create_grouped_bar_chart fetch var1 var2 num_var
        label1 label2 num_label)
    -- Case 4: 수치형 vs 수치형 -> 버블 차트
    else if type1 == "수치형" && type2 == "수치형" then
      if label1 == "사고건수" || label2 == "사고건수" then
        ((none, "이 시각화는 '사고건수'를 지원하지 않습니다."), [])
      else runChart (create_bubble_chart fetch var1 var2 label1 label2)
    -- Case 5: 시간형 vs 범주형 -> 다중 라인 차트
    else if type1 == "시간형" && type2 == "범주형" then
      let num_label := "사고건수"
      let num_var := (get_internal_name num_label).getD ""
      runChart (create_multi_line_chart fetch var1 var2 num_var
        label1 label2 num_label)
    else if type1 == "범주형" && type2 == "시간형" then
      let num_label := "사고건수"
      let num_var := (get_internal_name num_label).getD ""
      runChart (create_multi_line_chart fetch var2 var1 num_var
        label2 label1 num_label)
    else ((none, "선택된 조합에 대한 시각화를 생성할 수 없습니다."), [])
  | _, _ => ((none, "선택된 변수명을 찾을 수 없습니다."), [])

def displayLabels : List String := COLUMN_CONFIG.map (·.label)

def internalIds : List String := COLUMN_CONFIG.map (·.internal)

/-- The internal identifiers of the Categorical (범주형) fields. -/
def categoricalIds : List String :=
  (COLUMN_CONFIG.filter (·.ctype == "범주형")).map (·.internal)

/-- The internal identifiers of the Numeric (수치형) fields, the
accident-count pseudo-field included. -/
def numericIds : List String :=
  (COLUMN_CONFIG.filter (·.ctype == "수치형")).map (·.internal)

/-- The internal identifiers of the Temporal (시간형) fields. -/
def temporalIds : List String :=
  (COLUMN_CONFIG.filter (·.ctype == "시간형")).map (·.internal)

/-- `strEnds hay needle`: `hay` ends with `needle`. -/
def strEnds (hay needle : String) : Bool :=
  strStarts needle.data.reverse hay.data.reverse

/-- The owning table of a field: the part of the internal identifier before
the dot. -/
def ownerTable (v : String) : String := (splitDot v).1

/-- The DRIVER join fragment the source emits. -/
def driverJoinSql : String :=
  " JOIN DRIVER ON ACCIDENT.AccidentID = DRIVER.AccidentID"

/-- The REGION join fragment the source emits. -/
def regionJoinSql : String :=
  " JOIN REGION ON ACCIDENT.RegionCode = REGION.RegionCode"

/-- The join clause as the spec words it: a join to a secondary table is
emitted if and only if that table is the owning table of at least one of
the involved fields. -/
def joinForFields (vars : List String) : String :=
  (if vars.any (fun v => ownerTable v == "DRIVER") then driverJoinSql else "")
  ++ (if vars.any (fun v => ownerTable v == "REGION") then regionJoinSql
    else "")

/-- The two-dimension aggregate `SELECT` clause of the grouped-bar and
multi-line routines. -/
def twoDimSelect (var1 var2 num_var : String) : String :=
  "SELECT " ++ ownerTable var1 ++ "." ++ (splitDot var1).2 ++ ", "
    ++ ownerTable var2 ++ "." ++ (splitDot var2).2 ++ ", "
    ++ (if (splitDot num_var).2 == "(사고건수)" then
      "COUNT(ACCIDENT.AccidentID)"
      else "SUM(" ++ ownerTable num_var ++ "." ++ (splitDot num_var).2 ++ ")")
    ++ " AS Value"

/-- The `SELECT` clause of the bubble routine. -/
def bubbleSelect (var1 var2 : String) : String :=
  "SELECT " ++ ownerTable var1 ++ "." ++ (splitDot var1).2 ++ ", "
    ++ ownerTable var2 ++ "." ++ (splitDot var2).2
    ++ ", COUNT(ACCIDENT.AccidentID) AS BubbleSize"

/-- The two-dimension `GROUP BY` clause of the grouped-bar, bubble and
multi-line routines. -/
def twoDimGroupBy (var1 var2 : String) : String :=
  "GROUP BY " ++ ownerTable var1 ++ "." ++ (splitDot var1).2 ++ ", "
    ++ ownerTable var2 ++ "." ++ (splitDot var2).2

/-- The aggregate expression the spec prescribes for a numeric field:
`COUNT(ACCIDENT.AccidentID)` exactly for the accident-count pseudo-field,
`SUM(<table>.<column>)` (the field's own identifier) otherwise. -/
def aggExprOf (num_var : String) : String :=
  if num_var == "ACCIDENT.(사고건수)" then "COUNT(ACCIDENT.AccidentID)"
  else "SUM(" ++ num_var ++ ")"

/-- The outcome class of a `(figure-or-None, message)` pair: `failure`, or
the kind of chart built. -/
def resultClass : Option Fig × String → String
  | (none, _) => "failure"
  | (some (Fig.bar ..), _) => "bar"
  | (some (Fig.line ..), _) => "line"
  | (some (Fig.groupedBar ..), _) => "groupedBar"
  | (some (Fig.scatter ..), _) => "scatter"
  | (some (Fig.multiLine ..), _) => "multiLine"

/-- The six mixed-type pairs the dispatcher canonicalizes by swapping the
arguments. -/
def mixedPair (t1 t2 : String) : Bool :=
  (t1 == "범주형" && t2 == "수치형") || (t1 == "수치형" && t2 == "범주형") ||
  (t1 == "시간형" && t2 == "수치형") || (t1 == "수치형" && t2 == "시간형") ||
  (t1 == "시간형" && t2 == "범주형") || (t1 == "범주형" && t2 == "시간형")

/-- The eight type pairs the dispatch table handles. -/
def handledPair (t1 t2 : String) : Bool :=
  mixedPair t1 t2 || (t1 == "범주형" && t2 == "범주형") ||
    (t1 == "수치형" && t2 == "수치형")

theorem get_internal_name_eq_none_iff (l : String) :
    get_internal_name l = none ↔ l ∉ displayLabels := by
  simp [get_internal_name, LABEL_TO_INTERNAL, displayLabels,
    List.find?_eq_none, List.mem_map]
theorem resolve_mem (l v : String) (h : get_internal_name l = some v) :
    v ∈ internalIds := by
  simp only [get_internal_name, LABEL_TO_INTERNAL, Option.map_eq_some'] at h
  obtain ⟨e, he, rfl⟩ := h
  have := List.mem_of_find?_eq_some he
  rw [List.mem_reverse] at this
  exact List.mem_map_of_mem _ this

theorem resolve_type_cases (l v : String) (h : get_internal_name l = some v) :
    get_column_type v = "범주형" ∨ get_column_type v = "수치형" ∨
      get_column_type v = "시간형" := by
  have hv := resolve_mem l v h
  have : ∀ x ∈ internalIds,
      (get_column_type x == "범주형" || get_column_type x == "수치형" ||
        get_column_type x == "시간형") = true := by decide
  have := this v hv
  simp only [Bool.or_eq_true, beq_iff_eq] at this
  tauto

theorem generate_dispatch_cat_num (fetch : FetchFn) (l1 l2 v1 v2 : String)
    (h1 : get_internal_name l1 = some v1) (h2 : get_internal_name l2 = some v2)
    (t1 : get_column_type v1 = "범주형") (t2 : get_column_type v2 = "수치형") :
    generate_visualization fetch l1 l2 =
      runChart (create_bar_chart fetch v1 v2 l1 l2) := by
  unfold generate_visualization
  rw [h1, h2]
  simp [t1, t2]

theorem generate_dispatch_num_cat (fetch : FetchFn) (l1 l2 v1 v2 : String)
    (h1 : get_internal_name l1 = some v1) (h2 : get_internal_name l2 = some v2)
    (t1 : get_column_type v1 = "수치형") (t2 : get_column_type v2 = "범주형") :
    generate_visualization fetch l1 l2 =
      runChart (create_bar_chart fetch v2 v1 l2 l1) := by
  unfold generate_visualization
  rw [h1, h2]
  simp [t1, t2]

theorem generate_dispatch_time_num (fetch : FetchFn) (l1 l2 v1 v2 : String)
    (h1 : get_internal_name l1 = some v1) (h2 : get_internal_name l2 = some v2)
    (t1 : get_column_type v1 = "시간형") (t2 : get_column_type v2 = "수치형") :
    generate_visualization fetch l1 l2 =
      runChart (create_line_chart fetch v1 v2 l1 l2) := by
  unfold generate_visualization
  rw [h1, h2]
  simp [t1, t2]

theorem generate_dispatch_num_time (fetch : FetchFn) (l1 l2 v1 v2 : String)
    (h1 : get_internal_name l1 = some v1) (h2 : get_internal_name l2 = some v2)
    (t1 : get_column_type v1 = "수치형") (t2 : get_column_type v2 = "시간형") :
    generate_visualization fetch l1 l2 =
      runChart (create_line_chart fetch v2 v1 l2 l1) := by
  unfold generate_visualization
  rw [h1, h2]
  simp [t1, t2]

theorem generate_dispatch_cat_cat (fetch : FetchFn) (l1 l2 v1 v2 : String)
    (h1 : get_internal_name l1 = some v1) (h2 : get_internal_name l2 = some v2)
    (t1 : get_column_type v1 = "범주형") (t2 : get_column_type v2 = "범주형") :
    generate_visualization fetch l1 l2 =
      runChart (create_grouped_bar_chart fetch v1 v2 "ACCIDENT.(사고건수)"
        l1 l2 "사고건수") := by
  unfold generate_visualization
  rw [h1, h2]
  simp [t1, t2]
  rfl

theorem generate_dispatch_num_num_count (fetch : FetchFn) (l1 l2 v1 v2 : String)
    (h1 : get_internal_name l1 = some v1) (h2 : get_internal_name l2 = some v2)
    (t1 : get_column_type v1 = "수치형") (t2 : get_column_type v2 = "수치형")
    (hc : l1 = "사고건수" ∨ l2 = "사고건수") :
    generate_visualization fetch l1 l2 =
      ((none, "이 시각화는 '사고건수'를 지원하지 않습니다."), []) := by
  unfold generate_visualization
  rw [h1, h2]
  rcases hc with hc | hc <;> simp [t1, t2, hc]

theorem generate_dispatch_num_num (fetch : FetchFn) (l1 l2 v1 v2 : String)
    (h1 : get_internal_name l1 = some v1) (h2 : get_internal_name l2 = some v2)
    (t1 : get_column_type v1 = "수치형") (t2 : get_column_type v2 = "수치형")
    (hc1 : l1 ≠ "사고건수") (hc2 : l2 ≠ "사고건수") :
    generate_visualization fetch l1 l2 =
      runChart (create_bubble_chart fetch v1 v2 l1 l2) := by
  unfold generate_visualization
  rw [h1, h2]
  simp [t1, t2, hc1, hc2]

theorem generate_dispatch_time_cat (fetch : FetchFn) (l1 l2 v1 v2 : String)
    (h1 : get_internal_name l1 = some v1) (h2 : get_internal_name l2 = some v2)
    (t1 : get_column_type v1 = "시간형") (t2 : get_column_type v2 = "범주형") :
    generate_visualization fetch l1 l2 =
      runChart (create_multi_line_chart fetch v1 v2 "ACCIDENT.(사고건수)"
        l1 l2 "사고건수") := by
  unfold generate_visualization
  rw [h1, h2]
  simp [t1, t2]
  rfl

theorem generate_dispatch_cat_time (fetch : FetchFn) (l1 l2 v1 v2 : String)
    (h1 : get_internal_name l1 = some v1) (h2 : get_internal_name l2 = some v2)
    (t1 : get_column_type v1 = "범주형") (t2 : get_column_type v2 = "시간형") :
    generate_visualization fetch l1 l2 =
      runChart (create_multi_line_chart fetch v2 v1 "ACCIDENT.(사고건수)"
        l2 l1 "사고건수") := by
  unfold generate_visualization
  rw [h1, h2]
  simp [t1, t2]
  rfl

theorem generate_dispatch_time_time (fetch : FetchFn) (l1 l2 v1 v2 : String)
    (h1 : get_internal_name l1 = some v1) (h2 : get_internal_name l2 = some v2)
    (t1 : get_column_type v1 = "시간형") (t2 : get_column_type v2 = "시간형") :
    generate_visualization fetch l1 l2 =
      ((none, "선택된 조합에 대한 시각화를 생성할 수 없습니다."), []) := by
  unfold generate_visualization
  rw [h1, h2]
  simp [t1, t2]

/-- C1: if either input label is not a display label of the catalog,
`generate_visualization` returns the failure pair
`(None, "선택된 변수명을 찾을 수 없습니다.")` and issues no query against the
backing store (its query log is empty), for every backing store. -/
theorem generate_unresolved_label_fails (fetch : FetchFn)
    (label1 label2 : String)
    (h : label1 ∉ displayLabels ∨ label2 ∉ displayLabels) :
    generate_visualization fetch label1 label2 =
      ((none, "선택된 변수명을 찾을 수 없습니다."), []) := by
  have h' : get_internal_name label1 = none ∨
      get_internal_name label2 = none := by
    rcases h with h | h
    · exact Or.inl ((get_internal_name_eq_none_iff _).mpr h)
    · exact Or.inr ((get_internal_name_eq_none_iff _).mpr h)
  unfold generate_visualization
  rcases h' with h' | h'
  · rw [h']
  · rw [h']
    cases get_internal_name label1 <;> rfl

/-- C1 witness: `generate("unknown label", "사고건수")` fails with the
not-found message and an empty query log. -/
theorem generate_unresolved_label_fails_witness :
    "unknown label" ∉ displayLabels ∧
    generate_visualization (fun _ => .ok []) "unknown label" "사고건수" =
      ((none, "선택된 변수명을 찾을 수 없습니다."), []) :=
  ⟨by decide,
    generate_unresolved_label_fails _ _ _ (Or.inl (by decide))⟩

/-- C2: when the backing store raises (`fetch` returns `.error e`) during
query execution, `generate_visualization` catches it and returns the
failure pair carrying the error text; the error never propagates.  A fetch
happened exactly when the query log is non-empty. -/
theorem generate_catches_errors (label1 label2 e : String)
    (h : (generate_visualization (fun _ => .error e) label1 label2).2 ≠ []) :
    (generate_visualization (fun _ => .error e) label1 label2).1 =
      (none, "차트 생성 중 오류가 발생했습니다: " ++ e) := by
  cases heq1 : get_internal_name label1 with
  | none =>
    have hz : generate_visualization (fun _ => .error e) label1 label2 =
        ((none, "선택된 변수명을 찾을 수 없습니다."), []) := by
      unfold generate_visualization; rw [heq1]
    rw [hz] at h; exact absurd rfl h
  | some var1 =>
    cases heq2 : get_internal_name label2 with
    | none =>
      have hz : generate_visualization (fun _ => .error e) label1 label2 =
          ((none, "선택된 변수명을 찾을 수 없습니다."), []) := by
        unfold generate_visualization; rw [heq1, heq2]
      rw [hz] at h; exact absurd rfl h
    | some var2 =>
      rcases resolve_type_cases label1 var1 heq1 with t1 | t1 | t1 <;>
        rcases resolve_type_cases label2 var2 heq2 with t2 | t2 | t2
      · rw [generate_dispatch_cat_cat _ _ _ _ _ heq1 heq2 t1 t2] at h ⊢; rfl
      · rw [generate_dispatch_cat_num _ _ _ _ _ heq1 heq2 t1 t2] at h ⊢; rfl
      · rw [generate_dispatch_cat_time _ _ _ _ _ heq1 heq2 t1 t2] at h ⊢; rfl
      · rw [generate_dispatch_num_cat _ _ _ _ _ heq1 heq2 t1 t2] at h ⊢; rfl
      · by_cases hc : label1 = "사고건수" ∨ label2 = "사고건수"
        · rw [generate_dispatch_num_num_count _ _ _ _ _ heq1 heq2 t1 t2 hc]
            at h
          exact absurd rfl h
        · push_neg at hc
          rw [generate_dispatch_num_num _ _ _ _ _ heq1 heq2 t1 t2 hc.1 hc.2]
            at h ⊢
          rfl
      · rw [generate_dispatch_num_time _ _ _ _ _ heq1 heq2 t1 t2] at h ⊢; rfl
      · rw [generate_dispatch_time_cat _ _ _ _ _ heq1 heq2 t1 t2] at h ⊢; rfl
      · rw [generate_dispatch_time_num _ _ _ _ _ heq1 heq2 t1 t2] at h ⊢; rfl
      · rw [generate_dispatch_time_time _ _ _ _ _ heq1 heq2 t1 t2] at h
        exact absurd rfl h

/-- C2 witness: a raising backing store on `generate("주야", "사망자수")`
issued one query and the error text came back in the failure pair. -/
theorem generate_catches_errors_witness :
    (generate_visualization (fun _ => .error "boom") "주야" "사망자수").2 ≠ [] ∧
    (generate_visualization (fun _ => .error "boom") "주야" "사망자수").1 =
      (none, "차트 생성 중 오류가 발생했습니다: " ++ "boom") :=
  ⟨by decide, generate_catches_errors _ _ _ (by decide)⟩

/-- C3: when both labels resolve to Numeric fields, `generate` fails with
the accident-count-unsupported message (and no query) whenever either label
is "사고건수", and dispatches the bubble-chart routine otherwise. -/
theorem generate_numeric_numeric (fetch : FetchFn) (label1 label2 v1 v2 : String)
    (h1 : get_internal_name label1 = some v1)
    (h2 : get_internal_name label2 = some v2)
    (t1 : get_column_type v1 = "수치형") (t2 : get_column_type v2 = "수치형") :
    (label1 = "사고건수" ∨ label2 = "사고건수" →
      generate_visualization fetch label1 label2 =
        ((none, "이 시각화는 '사고건수'를 지원하지 않습니다."), [])) ∧
    (label1 ≠ "사고건수" → label2 ≠ "사고건수" →
      generate_visualization fetch label1 label2 =
        runChart (create_bubble_chart fetch v1 v2 label1 label2)) :=
  ⟨fun hc => generate_dispatch_num_num_count fetch _ _ _ _ h1 h2 t1 t2 hc,
   fun hc1 hc2 => generate_dispatch_num_num fetch _ _ _ _ h1 h2 t1 t2 hc1 hc2⟩

/-- C3 witness: `generate("사고건수", "중상자수")` fails with the unsupported
message; `generate("중상자수", "경상자수")` dispatches the bubble routine. -/
theorem generate_numeric_numeric_witness :
    (generate_visualization (fun _ => .ok []) "사고건수" "중상자수" =
      ((none, "이 시각화는 '사고건수'를 지원하지 않습니다."), [])) ∧
    (generate_visualization (fun _ => .ok []) "중상자수" "경상자수" =
      runChart (create_bubble_chart (fun _ => .ok [])
        "ACCIDENT.SevereInjuryCount" "ACCIDENT.MinorInjuryCount"
        "중상자수" "경상자수")) :=
  ⟨(generate_numeric_numeric (fun _ => .ok []) "사고건수" "중상자수"
      "ACCIDENT.(사고건수)" "ACCIDENT.SevereInjuryCount"
      (by decide) (by decide) (by decide) (by decide)).1
    (Or.inl rfl),
   (generate_numeric_numeric (fun _ => .ok []) "중상자수" "경상자수"
      "ACCIDENT.SevereInjuryCount" "ACCIDENT.MinorInjuryCount"
      (by decide) (by decide) (by decide) (by decide)).2
    (by decide) (by decide)⟩

set_option maxHeartbeats 4000000 in
set_option maxRecDepth 4000 in
/-- C4: each chart routine hands `_fetch_data` exactly its query builder's
string; the bar-chart query (and only it) ends with
`ORDER BY Value DESC LIMIT 20`, and the queries of the other four routines
(over the catalog fields their dispatch case supplies) contain no `LIMIT`
at all. -/
theorem bar_chart_top20_only :
    (∀ fetch cv nv cl nl,
      (create_bar_chart fetch cv nv cl nl).2 = [bar_chart_query cv nv]) ∧
    (∀ fetch tv nv tl nl,
      (create_line_chart fetch tv nv tl nl).2 = [line_chart_query tv nv]) ∧
    (∀ fetch v1 v2 n l1 l2 nl,
      (create_grouped_bar_chart fetch v1 v2 n l1 l2 nl).2 =
        [grouped_bar_chart_query v1 v2 n]) ∧
    (∀ fetch v1 v2 l1 l2,
      (create_bubble_chart fetch v1 v2 l1 l2).2 = [bubble_chart_query v1 v2]) ∧
    (∀ fetch tv cv n tl cl nl,
      (create_multi_line_chart fetch tv cv n tl cl nl).2 =
        [multi_line_chart_query tv cv n]) ∧
    (∀ cv ∈ categoricalIds, ∀ nv ∈ numericIds,
      strEnds (bar_chart_query cv nv) " ORDER BY Value DESC LIMIT 20" =
        true) ∧
    (∀ tv ∈ temporalIds, ∀ nv ∈ numericIds,
      strContains (line_chart_query tv nv) "LIMIT" = false) ∧
    (∀ v1 ∈ categoricalIds, ∀ v2 ∈ categoricalIds,
      strContains (grouped_bar_chart_query v1 v2 "ACCIDENT.(사고건수)")
        "LIMIT" = false) ∧
    (∀ v1 ∈ numericIds, ∀ v2 ∈ numericIds,
      strContains (bubble_chart_query v1 v2) "LIMIT" = false) ∧
    (∀ tv ∈ temporalIds, ∀ cv ∈ categoricalIds,
      strContains (multi_line_chart_query tv cv "ACCIDENT.(사고건수)")
        "LIMIT" = false) := by
  refine ⟨fun _ _ _ _ _ => rfl, fun _ _ _ _ _ => rfl,
    fun _ _ _ _ _ _ _ => rfl, fun _ _ _ _ _ => rfl,
    fun _ _ _ _ _ _ _ => rfl, ?_, ?_, ?_, ?_, ?_⟩
  · decide
  · decide
  · decide
  · decide
  · decide

/-- C4 witness: the region-by-death-count bar query ends with the top-20
clause, while the grouped-bar query for the same region dimension has no
`LIMIT`. -/
theorem bar_chart_top20_only_witness :
    "REGION.RegionName" ∈ categoricalIds ∧
    "ACCIDENT.DeathCount" ∈ numericIds ∧
    strEnds (bar_chart_query "REGION.RegionName" "ACCIDENT.DeathCount")
      " ORDER BY Value DESC LIMIT 20" = true ∧
    strContains (grouped_bar_chart_query "REGION.RegionName"
      "ACCIDENT.DayNight" "ACCIDENT.(사고건수)") "LIMIT" = false :=
  ⟨by decide, by decide,
    bar_chart_top20_only.2.2.2.2.2.1 "REGION.RegionName" (by decide)
      "ACCIDENT.DeathCount" (by decide),
    bar_chart_top20_only.2.2.2.2.2.2.2.1 "REGION.RegionName" (by decide)
      "ACCIDENT.DayNight" (by decide)⟩

theorem strBeq_comm (a b : String) : (a == b) = (b == a) := by
  by_cases h : a = b
  · simp [h]
  · simp [beq_eq_decide, h, Ne.symm h]

theorem contains_acc3 (s t1 t2 : String) (hs : s ≠ "ACCIDENT") :
    (["ACCIDENT", t1, t2].contains s) = (t1 == s || t2 == s) := by
  have h0 : (s == "ACCIDENT") = false := by simp [beq_eq_decide, hs]
  simp only [List.contains, List.elem, h0, strBeq_comm s t1, strBeq_comm s t2]
  cases t1 == s <;> cases t2 == s <;> rfl

theorem contains_acc4 (s t1 t2 t3 : String) (hs : s ≠ "ACCIDENT") :
    (["ACCIDENT", t1, t2, t3].contains s) =
      (t1 == s || t2 == s || t3 == s) := by
  have h0 : (s == "ACCIDENT") = false := by simp [beq_eq_decide, hs]
  simp only [List.contains, List.elem, h0, strBeq_comm s t1, strBeq_comm s t2,
    strBeq_comm s t3]
  cases t1 == s <;> cases t2 == s <;> cases t3 == s <;> rfl

/-- C5: every query keeps `FROM ACCIDENT` as its from-clause, and each
query builder's join clause equals `joinForFields`, which emits the DRIVER
(resp. REGION) join if and only if DRIVER (resp. REGION) is the owning
table of one of the involved fields; when every involved field is owned by
ACCIDENT the join clause is empty. -/
theorem from_accident_join_iff_owner :
    (∀ var1 var2 agg,
      (build_query_components var1 var2 agg).2.1 = "FROM ACCIDENT" ∧
      (build_query_components var1 var2 agg).2.2.1 =
        joinForFields [var1, var2]) ∧
    (∀ v1 v2 nv, grouped_bar_chart_query v1 v2 nv =
      twoDimSelect v1 v2 nv ++ " " ++ "FROM ACCIDENT" ++ " " ++
        joinForFields [v1, v2, nv] ++ " " ++ twoDimGroupBy v1 v2) ∧
    (∀ v1 v2, bubble_chart_query v1 v2 =
      bubbleSelect v1 v2 ++ " " ++ "FROM ACCIDENT" ++ " " ++
        joinForFields [v1, v2] ++ " " ++ twoDimGroupBy v1 v2) ∧
    (∀ tv cv nv, multi_line_chart_query tv cv nv =
      twoDimSelect tv cv nv ++ " " ++ "FROM ACCIDENT" ++ " " ++
        joinForFields [tv, cv, nv] ++ " " ++ twoDimGroupBy tv cv ++ " " ++
        ("ORDER BY " ++ ownerTable tv ++ "." ++ (splitDot tv).2)) ∧
    (∀ v1 v2 nv, ownerTable v1 = "ACCIDENT" → ownerTable v2 = "ACCIDENT" →
      ownerTable nv = "ACCIDENT" →
      joinForFields [v1, v2, nv] = "" ∧ joinForFields [v1, v2] = "") := by
  refine ⟨?_, ?_, ?_, ?_, ?_⟩
  · intro var1 var2 agg
    constructor
    · cases agg <;> rfl
    · rcases hv1 : splitDot var1 with ⟨t1, c1⟩
      rcases hv2 : splitDot var2 with ⟨t2, c2⟩
      unfold build_query_components joinForFields ownerTable
      rw [hv1, hv2]
      dsimp only
      rw [contains_acc3 _ _ _ (by decide), contains_acc3 _ _ _ (by decide)]
      cases agg <;>
        simp [List.any_cons, List.any_nil, Bool.or_false, driverJoinSql,
          regionJoinSql, hv1, hv2]
  · intro v1 v2 nv
    rcases hv1 : splitDot v1 with ⟨t1, c1⟩
    rcases hv2 : splitDot v2 with ⟨t2, c2⟩
    rcases hv3 : splitDot nv with ⟨t3, c3⟩
    unfold grouped_bar_chart_query twoDimSelect twoDimGroupBy joinForFields
      ownerTable
    rw [hv1, hv2, hv3]
    dsimp only
    rw [contains_acc4 _ _ _ _ (by decide), contains_acc4 _ _ _ _ (by decide)]
    simp [List.any_cons, List.any_nil, Bool.or_false, driverJoinSql,
      regionJoinSql, hv1, hv2, hv3, or_assoc]
  · intro v1 v2
    rcases hv1 : splitDot v1 with ⟨t1, c1⟩
    rcases hv2 : splitDot v2 with ⟨t2, c2⟩
    unfold bubble_chart_query bubbleSelect twoDimGroupBy joinForFields
      ownerTable
    rw [hv1, hv2]
    dsimp only
    rw [contains_acc3 _ _ _ (by decide), contains_acc3 _ _ _ (by decide)]
    simp [List.any_cons, List.any_nil, Bool.or_false, driverJoinSql,
      regionJoinSql, hv1, hv2]
  · intro tv cv nv
    rcases hv1 : splitDot tv with ⟨t1, c1⟩
    rcases hv2 : splitDot cv with ⟨t2, c2⟩
    rcases hv3 : splitDot nv with ⟨t3, c3⟩
    unfold multi_line_chart_query twoDimSelect twoDimGroupBy joinForFields
      ownerTable
    rw [hv1, hv2, hv3]
    dsimp only
    rw [contains_acc4 _ _ _ _ (by decide), contains_acc4 _ _ _ _ (by decide)]
    simp [List.any_cons, List.any_nil, Bool.or_false, driverJoinSql,
      regionJoinSql, hv1, hv2, hv3, or_assoc]
  · intro v1 v2 nv h1 h2 h3
    constructor <;>
      simp [joinForFields, List.any_cons, List.any_nil, h1, h2, h3]

/-- C5 witness: for two ACCIDENT-owned fields the join clause is empty and
the from-clause is `FROM ACCIDENT`; the spec-shaped join for them is
empty. -/
theorem from_accident_join_iff_owner_witness :
    ownerTable "ACCIDENT.DayNight" = "ACCIDENT" ∧
    ownerTable "ACCIDENT.DeathCount" = "ACCIDENT" ∧
    ownerTable "ACCIDENT.(사고건수)" = "ACCIDENT" ∧
    joinForFields ["ACCIDENT.DayNight", "ACCIDENT.DeathCount",
      "ACCIDENT.(사고건수)"] = "" ∧
    joinForFields ["ACCIDENT.DayNight", "ACCIDENT.DeathCount"] = "" :=
  ⟨by decide, by decide, by decide,
    (from_accident_join_iff_owner.2.2.2.2 "ACCIDENT.DayNight"
      "ACCIDENT.DeathCount" "ACCIDENT.(사고건수)" (by decide) (by decide)
      (by decide)).1,
    (from_accident_join_iff_owner.2.2.2.2 "ACCIDENT.DayNight"
      "ACCIDENT.DeathCount" "ACCIDENT.(사고건수)" (by decide) (by decide)
      (by decide)).2⟩

set_option maxHeartbeats 4000000 in
set_option maxRecDepth 4000 in
/-- C6: in every aggregating query the aggregate expression is
`COUNT(ACCIDENT.AccidentID)` if and only if the numeric field is the
accident-count pseudo-field `ACCIDENT.(사고건수)`, and
`SUM(<table>.<column>)` of the field's real column otherwise; the bubble
query always aggregates `COUNT(ACCIDENT.AccidentID)`. -/
theorem aggregate_count_iff_pseudo :
    (∀ nv ∈ numericIds, ∀ var1,
      (build_query_components var1 nv
          (some (if strContains nv "(사고건수)" then "COUNT" else "SUM"))).1 =
        "SELECT " ++ ownerTable var1 ++ "." ++ (splitDot var1).2 ++ ", " ++
          aggExprOf nv ++ " AS Value") ∧
    (∀ cv ∈ categoricalIds, ∀ nv ∈ numericIds,
      strContains (bar_chart_query cv nv) (aggExprOf nv) = true ∧
      strContains (bar_chart_query cv nv) "COUNT(" =
        (nv == "ACCIDENT.(사고건수)") ∧
      strContains (bar_chart_query cv nv) "SUM(" =
        (nv != "ACCIDENT.(사고건수)")) ∧
    (∀ tv ∈ temporalIds, ∀ nv ∈ numericIds,
      strContains (line_chart_query tv nv) (aggExprOf nv) = true ∧
      strContains (line_chart_query tv nv) "COUNT(" =
        (nv == "ACCIDENT.(사고건수)") ∧
      strContains (line_chart_query tv nv) "SUM(" =
        (nv != "ACCIDENT.(사고건수)")) ∧
    (∀ v1 ∈ categoricalIds, ∀ v2 ∈ categoricalIds,
      strContains (grouped_bar_chart_query v1 v2 "ACCIDENT.(사고건수)")
        "COUNT(ACCIDENT.AccidentID)" = true ∧
      strContains (grouped_bar_chart_query v1 v2 "ACCIDENT.(사고건수)")
        "SUM(" = false) ∧
    (∀ tv ∈ temporalIds, ∀ cv ∈ categoricalIds,
      strContains (multi_line_chart_query tv cv "ACCIDENT.(사고건수)")
        "COUNT(ACCIDENT.AccidentID)" = true ∧
      strContains (multi_line_chart_query tv cv "ACCIDENT.(사고건수)")
        "SUM(" = false) ∧
    (∀ v1 ∈ numericIds, ∀ v2 ∈ numericIds,
      strContains (bubble_chart_query v1 v2)
        "COUNT(ACCIDENT.AccidentID) AS BubbleSize" = true) := by
  refine ⟨?_, ?_, ?_, ?_, ?_⟩
  · intro nv hnv var1
    rcases hv1 : splitDot var1 with ⟨t1, c1⟩
    unfold build_query_components aggExprOf ownerTable
    rw [hv1]
    dsimp only
    fin_cases hnv <;> rfl
  · decide
  · decide
  · decide
  · decide

/-- C6 witness: the bar query for day/night by death count uses
`SUM(ACCIDENT.DeathCount)` and no `COUNT(`; with the accident-count
pseudo-field it uses `COUNT(ACCIDENT.AccidentID)` and no `SUM(`. -/
theorem aggregate_count_iff_pseudo_witness :
    "ACCIDENT.DayNight" ∈ categoricalIds ∧
    "ACCIDENT.DeathCount" ∈ numericIds ∧
    "ACCIDENT.(사고건수)" ∈ numericIds ∧
    strContains (bar_chart_query "ACCIDENT.DayNight" "ACCIDENT.DeathCount")
      (aggExprOf "ACCIDENT.DeathCount") = true ∧
    strContains (bar_chart_query "ACCIDENT.DayNight" "ACCIDENT.DeathCount")
      "COUNT(" = false ∧
    strContains (bar_chart_query "ACCIDENT.DayNight" "ACCIDENT.(사고건수)")
      "COUNT(" = true :=
  ⟨by decide, by decide, by decide,
    (aggregate_count_iff_pseudo.2.1 "ACCIDENT.DayNight" (by decide)
      "ACCIDENT.DeathCount" (by decide)).1,
    (aggregate_count_iff_pseudo.2.1 "ACCIDENT.DayNight" (by decide)
      "ACCIDENT.DeathCount" (by decide)).2.1,
    (aggregate_count_iff_pseudo.2.1 "ACCIDENT.DayNight" (by decide)
      "ACCIDENT.(사고건수)" (by decide)).2.1⟩

/-- C7: `"202201"` parses (format `YYYYMM`) to January 2022; when any value
of the temporal column fails to parse (e.g. `"abcd12"`), the conversion
warns and leaves the frame unconverted, never dropping a row; and the line
and multi-line routines proceed to build their chart over the (possibly
unconverted) frame rather than aborting. -/
theorem temporal_parse_lenient :
    parseYearMonth "202201" = some (2022, 1) ∧
    (∀ df : Df0, (∃ row ∈ df, parseYearMonth (row.headD "") = none) →
      convertTimeColumn df = (rawDf df, true)) ∧
    (∀ df : Df0, ((convertTimeColumn df).1).length = df.length) ∧
    (∀ df : Df0, ∀ tv nv tl nl,
      create_line_chart (fun _ => .ok df) tv nv tl nl =
        (.ok (some (Fig.line (convertTimeColumn df).1 (splitDot tv).2 "Value"
          ("'" ++ tl ++ "' 별 '" ++ nl ++ "' 추이")
          [((splitDot tv).2, tl), ("Value", nl)] true),
          "'" ++ tl ++ "' 별 '" ++ nl ++ "' 추이"),
          [line_chart_query tv nv])) ∧
    (∀ df : Df0, ∀ tv cv nv tl cl nl,
      create_multi_line_chart (fun _ => .ok df) tv cv nv tl cl nl =
        (.ok (some (Fig.multiLine (convertTimeColumn df).1 (splitDot tv).2
          "Value" (splitDot cv).2
          ("'" ++ tl ++ "'에 따른 '" ++ cl ++ "'별 '" ++ nl ++ "' 추이")
          [((splitDot tv).2, tl), ("Value", nl), ((splitDot cv).2, cl)] true),
          "'" ++ tl ++ "'에 따른 '" ++ cl ++ "'별 '" ++ nl ++ "' 추이"),
          [multi_line_chart_query tv cv nv])) := by
  refine ⟨by decide, ?_, ?_, ?_, ?_⟩
  · intro df h
    obtain ⟨row, hrow, hnone⟩ := h
    have hall : df.all (fun row => (parseYearMonth (row.headD "")).isSome) =
        false := by
      rw [List.all_eq_false]
      refine ⟨row, hrow, ?_⟩
      simp only [hnone, Option.isSome_none, Bool.false_eq_true,
        not_false_eq_true]
    unfold convertTimeColumn
    rw [hall]
    rfl
  · intro df
    unfold convertTimeColumn
    split <;> simp [rawDf]
  · intro df tv nv tl nl
    rfl
  · intro df tv cv nv tl cl nl
    rfl

/-- C7 witness: on a frame holding `"202201"` and the malformed `"abcd12"`,
the conversion leaves every value raw, warns, and keeps both rows. -/
theorem temporal_parse_lenient_witness :
    (∃ row ∈ ([["202201", "5"], ["abcd12", "3"]] : Df0),
      parseYearMonth (row.headD "") = none) ∧
    convertTimeColumn [["202201", "5"], ["abcd12", "3"]] =
      (rawDf [["202201", "5"], ["abcd12", "3"]], true) :=
  ⟨⟨["abcd12", "3"], by decide, by decide⟩,
    temporal_parse_lenient.2.1 _ ⟨["abcd12", "3"], by decide, by decide⟩⟩

/-- C8: over any fixed non-empty result set, swapping the two labels leaves
the outcome class unchanged for every handled type pair, and for the six
mixed-type pairs the dispatcher canonicalizes by swapping the arguments, so
the two orders produce the very same result (one routine handles both). -/
theorem generate_commutative (label1 label2 v1 v2 : String)
    (h1 : get_internal_name label1 = some v1)
    (h2 : get_internal_name label2 = some v2)
    (df : Df0) (hdf : df ≠ []) :
    (mixedPair (get_column_type v1) (get_column_type v2) = true →
      generate_visualization (fun _ => .ok df) label1 label2 =
        generate_visualization (fun _ => .ok df) label2 label1) ∧
    (handledPair (get_column_type v1) (get_column_type v2) = true →
      resultClass
          (generate_visualization (fun _ => .ok df) label1 label2).1 =
        resultClass
          (generate_visualization (fun _ => .ok df) label2 label1).1) := by
  rcases resolve_type_cases label1 v1 h1 with t1 | t1 | t1 <;>
    rcases resolve_type_cases label2 v2 h2 with t2 | t2 | t2
  · -- 범주형 / 범주형
    constructor
    · intro hm; rw [t1, t2] at hm; exact absurd hm (by decide)
    · intro _
      rw [generate_dispatch_cat_cat _ _ _ _ _ h1 h2 t1 t2,
        generate_dispatch_cat_cat _ _ _ _ _ h2 h1 t2 t1]
      rfl
  · -- 범주형 / 수치형
    constructor <;> intro _ <;>
      rw [generate_dispatch_cat_num _ _ _ _ _ h1 h2 t1 t2,
        generate_dispatch_num_cat _ _ _ _ _ h2 h1 t2 t1]
  · -- 범주형 / 시간형
    constructor <;> intro _ <;>
      rw [generate_dispatch_cat_time _ _ _ _ _ h1 h2 t1 t2,
        generate_dispatch_time_cat _ _ _ _ _ h2 h1 t2 t1]
  · -- 수치형 / 범주형
    constructor <;> intro _ <;>
      rw [generate_dispatch_num_cat _ _ _ _ _ h1 h2 t1 t2,
        generate_dispatch_cat_num _ _ _ _ _ h2 h1 t2 t1]
  · -- 수치형 / 수치형
    by_cases hc : label1 = "사고건수" ∨ label2 = "사고건수"
    · constructor
      · intro hm; rw [t1, t2] at hm; exact absurd hm (by decide)
      · intro _
        rw [generate_dispatch_num_num_count _ _ _ _ _ h1 h2 t1 t2 hc,
          generate_dispatch_num_num_count _ _ _ _ _ h2 h1 t2 t1 hc.symm]
    · push_neg at hc
      constructor
      · intro hm; rw [t1, t2] at hm; exact absurd hm (by decide)
      · intro _
        rw [generate_dispatch_num_num _ _ _ _ _ h1 h2 t1 t2 hc.1 hc.2,
          generate_dispatch_num_num _ _ _ _ _ h2 h1 t2 t1 hc.2 hc.1]
        cases df with
        | nil => exact absurd rfl hdf
        | cons r rs => rfl
  · -- 수치형 / 시간형
    constructor <;> intro _ <;>
      rw [generate_dispatch_num_time _ _ _ _ _ h1 h2 t1 t2,
        generate_dispatch_time_num _ _ _ _ _ h2 h1 t2 t1]
  · -- 시간형 / 범주형
    constructor <;> intro _ <;>
      rw [generate_dispatch_time_cat _ _ _ _ _ h1 h2 t1 t2,
        generate_dispatch_cat_time _ _ _ _ _ h2 h1 t2 t1]
  · -- 시간형 / 수치형
    constructor <;> intro _ <;>
      rw [generate_dispatch_time_num _ _ _ _ _ h1 h2 t1 t2,
        generate_dispatch_num_time _ _ _ _ _ h2 h1 t2 t1]
  · -- 시간형 / 시간형: 어느 쪽도 해당 없음
    constructor
    · intro hm; rw [t1, t2] at hm; exact absurd hm (by decide)
    · intro hm; rw [t1, t2] at hm; exact absurd hm (by decide)

/-- C8 witness: `generate("주야", "사망자수")` and the swapped call coincide
entirely on a fixed one-row result set. -/
theorem generate_commutative_witness :
    mixedPair (get_column_type "ACCIDENT.DayNight")
      (get_column_type "ACCIDENT.DeathCount") = true ∧
    generate_visualization (fun _ => .ok [["a", "1"]]) "주야" "사망자수" =
      generate_visualization (fun _ => .ok [["a", "1"]]) "사망자수" "주야" :=
  ⟨by decide,
    (generate_commutative "주야" "사망자수" "ACCIDENT.DayNight"
      "ACCIDENT.DeathCount" (by decide) (by decide) [["a", "1"]]
      (by decide)).1 (by decide)⟩

/-- C9: when the executed bubble query returns zero rows the routine
returns the failure pair with the no-data message instead of an empty
chart; for every non-empty result set it returns the scatter figure with
tick spacing fixed at 1 on both axes. -/
theorem bubble_chart_empty_guard (fetch : FetchFn) (v1 v2 l1 l2 q : String)
    (df : Df0)
    (hq : (create_bubble_chart fetch v1 v2 l1 l2).2 = [q])
    (hf : fetch q = .ok df) :
    (df = [] →
      (create_bubble_chart fetch v1 v2 l1 l2).1 =
        .ok (none, "데이터가 없어 버블 차트를 생성할 수 없습니다.")) ∧
    (df ≠ [] →
      (create_bubble_chart fetch v1 v2 l1 l2).1 =
        .ok (some (Fig.scatter (rawDf df) (splitDot v1).2 (splitDot v2).2
          "BubbleSize" "BubbleSize" 60
          ("'" ++ l1 ++ "'와 '" ++ l2 ++ "' 조합별 '사고건수' (버블 차트)")
          [((splitDot v1).2, l1), ((splitDot v2).2, l2),
            ("BubbleSize", "사고건수")] 1 1),
          "'" ++ l1 ++ "'와 '" ++ l2 ++ "' 조합별 '사고건수' (버블 차트)")) := by
  have hq' : bubble_chart_query v1 v2 = q := by
    have h := hq
    change [bubble_chart_query v1 v2] = [q] at h
    simpa using h
  rw [← hq'] at hf
  constructor
  · rintro rfl
    unfold create_bubble_chart
    dsimp only
    rw [hf]
    rfl
  · intro hne
    unfold create_bubble_chart
    dsimp only
    rw [hf]
    cases df with
    | nil => exact absurd rfl hne
    | cons r rs => rfl

/-- C9 witness: with a store returning zero rows the bubble routine for
severe-by-minor injuries fails with the no-data message. -/
theorem bubble_chart_empty_guard_witness :
    (create_bubble_chart (fun _ => .ok []) "ACCIDENT.SevereInjuryCount"
      "ACCIDENT.MinorInjuryCount" "중상자수" "경상자수").2 =
      [bubble_chart_query "ACCIDENT.SevereInjuryCount"
        "ACCIDENT.MinorInjuryCount"] ∧
    (create_bubble_chart (fun _ => .ok []) "ACCIDENT.SevereInjuryCount"
      "ACCIDENT.MinorInjuryCount" "중상자수" "경상자수").1 =
      .ok (none, "데이터가 없어 버블 차트를 생성할 수 없습니다.") :=
  ⟨rfl,
    (bubble_chart_empty_guard (fun _ => .ok []) "ACCIDENT.SevereInjuryCount"
      "ACCIDENT.MinorInjuryCount" "중상자수" "경상자수"
      (bubble_chart_query "ACCIDENT.SevereInjuryCount"
        "ACCIDENT.MinorInjuryCount") [] rfl rfl).1 rfl⟩

/-- C10: for resolvable labels whose type pair the dispatch table does not
handle, and for the Numeric–Numeric pair containing the accident-count
label, `generate_visualization` returns the failure pair with an empty
query log — nothing reaches the backing store. -/
theorem dispatch_rejections_issue_no_query (fetch : FetchFn)
    (label1 label2 v1 v2 : String)
    (h1 : get_internal_name label1 = some v1)
    (h2 : get_internal_name label2 = some v2) :
    (handledPair (get_column_type v1) (get_column_type v2) = false →
      generate_visualization fetch label1 label2 =
        ((none, "선택된 조합에 대한 시각화를 생성할 수 없습니다."), [])) ∧
    (get_column_type v1 = "수치형" → get_column_type v2 = "수치형" →
      label1 = "사고건수" ∨ label2 = "사고건수" →
      generate_visualization fetch label1 label2 =
        ((none, "이 시각화는 '사고건수'를 지원하지 않습니다."), [])) := by
  constructor
  · intro hnp
    rcases resolve_type_cases label1 v1 h1 with t1 | t1 | t1 <;>
      rcases resolve_type_cases label2 v2 h2 with t2 | t2 | t2 <;>
      rw [t1, t2] at hnp <;>
      first
        | exact absurd hnp (by decide)
        | exact generate_dispatch_time_time _ _ _ _ _ h1 h2 t1 t2
  · intro ht1 ht2 hc
    exact generate_dispatch_num_num_count _ _ _ _ _ h1 h2 ht1 ht2 hc

/-- C10 witness: `generate("발생년월", "발생년월")` (Temporal–Temporal, not in
the dispatch table) fails with the unsupported-combination message and an
empty query log. -/
theorem dispatch_rejections_issue_no_query_witness :
    handledPair (get_column_type "ACCIDENT.OccurYearMonth")
      (get_column_type "ACCIDENT.OccurYearMonth") = false ∧
    generate_visualization (fun _ => .ok []) "발생년월" "발생년월" =
      ((none, "선택된 조합에 대한 시각화를 생성할 수 없습니다."), []) :=
  ⟨by decide,
    (dispatch_rejections_issue_no_query (fun _ => .ok []) "발생년월" "발생년월"
      "ACCIDENT.OccurYearMonth" "ACCIDENT.OccurYearMonth" (by decide)
      (by decide)).1 (by decide)⟩
